import Mathlib

/-!
Verification development for the speech-to-text session controller
(`src/use-speech-to-text.ts`).

The controller is a React hook.  Its observable data is the React state
value (`SpeechToTextState`), and its hidden data lives in refs: the live
recognition instance (`recognitionRef`), the pending silence-watchdog
timer (`silenceTimeoutRef`), a transcript mirror used by the auto-stop
callback (`transcriptRef`), and the working options (`optionsRef`).
We embed all of this as one `Controller` record, every event handler and
public action as a pure function on it, and host-environment signals
(window presence, user agent, constructor availability) as a `BrowserEnv`
record.  Commands sent to the capability (`start`, `stop`, `abort`) and
invocations of the `onAutoStop` callback are returned as an explicit list
so that command emission is observable.

Modelling conventions:
- `confidence` is carried through untouched by the code, so its numeric
  type is irrelevant; we use `Int`.
- timestamps (`new Date()`) are an opaque `Nat` supplied to the handler.
- a thrown JS exception is modelled by an `Option String` oracle argument
  (`none` = no throw, `some msg` = a throw with that message), at the two
  places the source wraps in try/catch: capability construction and the
  start attempt.
- each result-list entry contributes only its first alternative
  (`result[0]`) in the source; we model an entry as that alternative
  paired with its `isFinal` flag.
-/

/-- One recognition alternative together with its finality flag:
the shape the `onresult` loop actually reads (`result[0].transcript`,
`result[0].confidence`, `result.isFinal`). -/
structure SpeechRecognitionResult where
  transcript : String
  confidence : Int
  isFinal : Bool
deriving DecidableEq

/-- The payload of a capability "result" event: the result list plus the
index of the first new/changed entry. -/
structure SpeechRecognitionEvent where
  resultIndex : Nat
  results : List SpeechRecognitionResult
deriving DecidableEq

/-- A logged result entry (`SpeechToTextResult` in `types`). -/
structure SpeechToTextResult where
  transcript : String
  confidence : Int
  isFinal : Bool
  timestamp : Nat
deriving DecidableEq

/-- `SpeechToTextStateError`: `browserInfo` is the optional
(browserName, reason) pair. -/
structure SpeechToTextStateError where
  code : String
  message : String
  name : String
  browserInfo : Option (String × String)
deriving DecidableEq

/-- The React state value of the hook (`SpeechToTextState` in `types`). -/
structure SpeechToTextState where
  isListening : Bool
  isSupported : Bool
  transcript : String
  interimTranscript : String
  finalTranscript : String
  results : List SpeechToTextResult
  error : Option SpeechToTextStateError
  isInitializing : Bool
deriving DecidableEq

/-- The `autoStopOnSilence` options object.  The presence of the
`onAutoStop` callback is recorded as a flag; its invocation is emitted
as a `Cmd`. -/
structure AutoStopOnSilence where
  enabled : Bool
  silenceDuration : Option Nat
  hasOnAutoStop : Bool
deriving DecidableEq

/-- `SpeechToTextOptions`: every field optional, as in the TS type. -/
structure SpeechToTextOptions where
  continuous : Option Bool
  interimResults : Option Bool
  maxAlternatives : Option Nat
  language : Option String
  autoStopOnSilence : Option AutoStopOnSilence
deriving DecidableEq

/-- The configuration applied to a live recognition instance
(`recognition.continuous` and friends). -/
structure RecognitionConfig where
  continuous : Bool
  interimResults : Bool
  maxAlternatives : Nat
  lang : String
deriving DecidableEq

/-- Host-environment signals consumed by the compatibility probe.
`iosVersion` models the result of the `OS (\d+)_(\d+)` user-agent match
(major, minor); `hasBraveProp` models `"brave" in navigator`;
`speechRecognitionExists` models the presence of any of the four
vendor-prefixed SpeechRecognition constructors on `window`. -/
structure BrowserEnv where
  hasWindow : Bool
  userAgent : String
  hasBraveProp : Bool
  speechRecognitionExists : Bool
  iosVersion : Option (Nat × Nat)
deriving DecidableEq

/-- Outcome of `checkBrowserCompatibility`. -/
structure BrowserCheck where
  isSupported : Bool
  browserName : String
  reason : String
deriving DecidableEq

/-- Observable interactions with the outside: commands issued to the
capability instance and invocations of the auto-stop callback. -/
inductive Cmd where
  | start : Cmd
  | stop : Cmd
  | abort : Cmd
  | autoStopCallback : String → Cmd
deriving DecidableEq

/-- The whole controller: React state plus every ref the hook keeps. -/
structure Controller where
  state : SpeechToTextState
  recognition : Option RecognitionConfig
  timerArmed : Bool
  transcriptRefFinal : String
  transcriptRefInterim : String
  options : SpeechToTextOptions
deriving DecidableEq

/-- Character-list helper: does `pat` occur at the head of `l`? -/
def isPre : List Char → List Char → Bool
  | [], _ => true
  | _ :: _, [] => false
  | a :: as, b :: bs => a = b && isPre as bs

/-- Character-list helper: does `pat` occur contiguously anywhere in `l`? -/
def hasSub (pat : List Char) : List Char → Bool
  | [] => pat.isEmpty
  | c :: rest => isPre pat (c :: rest) || hasSub pat rest

/-- JS `String.prototype.includes`. -/
def strIncludes (s pat : String) : Bool := hasSub pat.data s.data

/-- ASCII lower-casing of one character (the strings the source lowers are
ASCII user-agent text). -/
def charLower (c : Char) : Char :=
  if 65 ≤ c.toNat ∧ c.toNat ≤ 90 then Char.ofNat (c.toNat + 32) else c

/-- ASCII upper-casing of one character (raw capability error codes are
ASCII). -/
def charUpper (c : Char) : Char :=
  if 97 ≤ c.toNat ∧ c.toNat ≤ 122 then Char.ofNat (c.toNat - 32) else c

/-- JS `toLowerCase` restricted to ASCII. -/
def strToLower (s : String) : String := ⟨s.data.map charLower⟩

/-- JS `toUpperCase` restricted to ASCII. -/
def strToUpper (s : String) : String := ⟨s.data.map charUpper⟩

/-- `getBrowserSpeechRecognition() !== null`: a constructor is available
iff a window exists and one of the vendor constructors is present. -/
def getBrowserSpeechRecognition (env : BrowserEnv) : Bool :=
  env.hasWindow && env.speechRecognitionExists

/-- The case-insensitive mobile-device user-agent test
(`Android|webOS|iPhone|iPad|iPod|BlackBerry|IEMobile|Opera Mini`). -/
def mobileUATest (ua : String) : Bool :=
  let l := strToLower ua
  strIncludes l "android" || strIncludes l "webos" || strIncludes l "iphone" ||
  strIncludes l "ipad" || strIncludes l "ipod" || strIncludes l "blackberry" ||
  strIncludes l "iemobile" || strIncludes l "opera mini"

/-- `checkBrowserCompatibility`, embedded branch for branch. -/
def checkBrowserCompatibility (env : BrowserEnv) : BrowserCheck :=
  if env.hasWindow = false then
    ⟨false, "Unknown", "Not running in browser environment"⟩
  else
    let ua := strToLower env.userAgent
    let isBrave := env.hasBraveProp
    let isChrome := strIncludes ua "chrome" && !(strIncludes ua "edg") && !isBrave
    let isEdge := strIncludes ua "edg"
    let isSafari := strIncludes ua "safari" && !(strIncludes ua "chrome")
    let isFirefox := strIncludes ua "firefox"
    let isOpera := strIncludes ua "opr" || strIncludes ua "opera"
    let srExists := getBrowserSpeechRecognition env
    if isBrave then
      ⟨false, "Brave", "Brave Browser does not support Web Speech API for privacy reasons"⟩
    else if isFirefox then
      ⟨false, "Firefox", "Firefox does not support Web Speech API"⟩
    else if isOpera then
      ⟨srExists, "Opera", if srExists then "" else "Opera has limited Web Speech API support"⟩
    else if isChrome then
      ⟨srExists, "Chrome",
        if srExists then "" else "Chrome should support Web Speech API but it\x27s not available"⟩
    else if isEdge then
      ⟨srExists, "Edge",
        if srExists then "" else "Edge should support Web Speech API but it\x27s not available"⟩
    else if isSafari then
      match (if mobileUATest env.userAgent then env.iosVersion else none) with
      | some (majorVersion, minorVersion) =>
        let supp := 14 < majorVersion || (majorVersion = 14 && 5 ≤ minorVersion)
        ⟨supp && srExists, "Safari (iOS)",
          if supp = false then "Web Speech API requires iOS 14.5 or later"
          else if srExists = false then "Web Speech API is not available"
          else ""⟩
      | none =>
        if strIncludes env.userAgent "Macintosh" || strIncludes env.userAgent "Mac OS" then
          ⟨srExists, "Safari (macOS)",
            if srExists then "" else "Web Speech API requires Safari 14.1 or later"⟩
        else
          ⟨srExists, "Safari",
            if srExists then "" else "Web Speech API may not be supported on this Safari version"⟩
    else
      ⟨srExists, "Unknown Browser",
        if srExists then "" else "This browser does not support Web Speech API"⟩

/-- JS `s.replace(pat, rep)` with a string pattern: replaces only the
FIRST occurrence of `pat` and leaves the string unchanged when `pat`
does not occur. -/
def replaceFirstAux (pat rep : List Char) : List Char → List Char
  | [] => []
  | c :: rest =>
    if isPre pat (c :: rest) then rep ++ (c :: rest).drop pat.length
    else c :: replaceFirstAux pat rep rest

def replaceFirst (s pat rep : String) : String :=
  ⟨replaceFirstAux pat.data rep.data s.data⟩

/-- `event.error.toUpperCase().replace("-", "_")` from the `onerror`
handler. -/
def normalizeErrorCode (raw : String) : String :=
  replaceFirst (strToUpper raw) "-" "_"

/-- The message switch of the `onerror` handler. -/
def errorMessageFor (raw : String) : String :=
  if raw = "no-speech" then "No speech was detected"
  else if raw = "audio-capture" then "Audio capture failed"
  else if raw = "not-allowed" then "Permission to use microphone was denied"
  else if raw = "network" then "Network error occurred"
  else if raw = "service-not-allowed" then "Speech recognition service is not allowed"
  else if raw = "bad-grammar" then "Grammar compilation failed"
  else if raw = "language-not-supported" then "Language is not supported"
  else if raw = "aborted" then "Speech recognition was aborted"
  else "An unknown error occurred during speech recognition"

/-- Whether `optionsRef.current.autoStopOnSilence?.enabled` is truthy. -/
def autoStopEnabled (o : SpeechToTextOptions) : Bool :=
  match o.autoStopOnSilence with
  | some a => a.enabled
  | none => false

/-- Whether the `onAutoStop` callback is present. -/
def hasAutoStopCb (o : SpeechToTextOptions) : Bool :=
  match o.autoStopOnSilence with
  | some a => a.hasOnAutoStop
  | none => false

/-- `resetSilenceTimeout`: clears any pending timer and arms a fresh one
exactly when the auto-stop feature is enabled.  The net effect on the
armed flag is `autoStopEnabled`. -/
def resetSilenceTimeout (c : Controller) : Controller :=
  { c with timerArmed := autoStopEnabled c.options }

/-- The `{...DEFAULT_OPTIONS, ...initialOptions}` / working-options merge:
a field present on the override wins, field by field. -/
def mergeOptions (cur ov : SpeechToTextOptions) : SpeechToTextOptions :=
  ⟨ov.continuous <|> cur.continuous,
   ov.interimResults <|> cur.interimResults,
   ov.maxAlternatives <|> cur.maxAlternatives,
   ov.language <|> cur.language,
   ov.autoStopOnSilence <|> cur.autoStopOnSilence⟩

/-- `DEFAULT_OPTIONS` from the hook body. -/
def DEFAULT_OPTIONS : SpeechToTextOptions :=
  ⟨some true, some true, some 1, some "en-US", some ⟨false, some 3000, false⟩⟩

/-- The option-to-instance application (`recognition.continuous =
options.continuous ?? true`, etc.). -/
def applyConfig (o : SpeechToTextOptions) : RecognitionConfig :=
  ⟨o.continuous.getD true, o.interimResults.getD true,
   o.maxAlternatives.getD 1, o.language.getD "en-US"⟩

/-- Controller as of the first render: the `useState` initial value plus
the initial refs. -/
def mkController (initialOptions : Option SpeechToTextOptions) : Controller :=
  { state := ⟨false, false, "", "", "", [], none, true⟩,
    recognition := none,
    timerArmed := false,
    transcriptRefFinal := "",
    transcriptRefInterim := "",
    options :=
      match initialOptions with
      | some o => mergeOptions DEFAULT_OPTIONS o
      | none => DEFAULT_OPTIONS }

/-- `initializeSpeechRecognition`: probes the environment, fails fast on
an unsupported probe or a missing constructor, otherwise constructs the
instance (construction may throw: `constructFails`).  Returns the updated
controller and the instance (or `none`). -/
def initSpeechRecognition (env : BrowserEnv) (constructFails : Option String)
    (c : Controller) : Controller × Option RecognitionConfig :=
  let bc := checkBrowserCompatibility env
  if bc.isSupported = false then
    ({ c with state := { c.state with
        isSupported := false, isInitializing := false,
        error := some ⟨"NOT_SUPPORTED", bc.reason, "NotSupportedError",
          some (bc.browserName, bc.reason)⟩ } }, none)
  else if getBrowserSpeechRecognition env = false then
    ({ c with state := { c.state with
        isSupported := false, isInitializing := false,
        error := some ⟨"NOT_SUPPORTED",
          "Speech recognition is not supported in this browser",
          "NotSupportedError",
          some (bc.browserName, "Web Speech API constructor not found")⟩ } }, none)
  else
    match constructFails with
    | some msg =>
      ({ c with state := { c.state with
          isSupported := false, isInitializing := false,
          error := some ⟨"INITIALIZATION_ERROR", msg, "InitializationError", none⟩ } }, none)
    | none =>
      ({ c with state := { c.state with isSupported := true, isInitializing := false } },
       some (applyConfig c.options))

/-- The mount effect: `recognitionRef.current = initializeSpeechRecognition()`. -/
def mountInit (env : BrowserEnv) (constructFails : Option String)
    (c : Controller) : Controller :=
  let p := initSpeechRecognition env constructFails c
  { p.1 with recognition := p.2 }

/-- `recognition.onstart`: listening begins, any prior error clears, and
the silence timeout restarts. -/
def onStart (c : Controller) : Controller :=
  resetSilenceTimeout
    { c with state := { c.state with isListening := true, error := none } }

/-- The `onresult` accumulation loop over the entries from `resultIndex`
onward: batch final suffix, batch interim, and the logged entries, in
arrival order.  The source accumulates left to right with `+=`; this
structural recursion produces the identical strings and list. -/
structure MergeOut where
  finalSuffix : String
  interim : String
  results : List SpeechToTextResult
deriving DecidableEq

def processEntries (now : Nat) : List SpeechRecognitionResult → MergeOut
  | [] => ⟨"", "", []⟩
  | r :: rs =>
    let rest := processEntries now rs
    if r.isFinal then
      ⟨r.transcript ++ rest.finalSuffix, rest.interim,
       ⟨r.transcript, r.confidence, r.isFinal, now⟩ :: rest.results⟩
    else
      ⟨rest.finalSuffix, r.transcript ++ rest.interim,
       ⟨r.transcript, r.confidence, r.isFinal, now⟩ :: rest.results⟩

/-- `recognition.onresult`: rearms the silence timeout, folds the new
entries, and updates state and transcript mirror.  NOTE the source sets
the combined `transcript` field from the batch-local `finalTranscript`
variable (the batch suffix), not from the accumulated final transcript:
`transcript: finalTranscript + interimTranscript` at line 354. -/
def onResult (ev : SpeechRecognitionEvent) (now : Nat) (c : Controller) : Controller :=
  let mo := processEntries now (ev.results.drop ev.resultIndex)
  { c with
    timerArmed := autoStopEnabled c.options,
    transcriptRefFinal := c.state.finalTranscript ++ mo.finalSuffix,
    transcriptRefInterim := mo.interim,
    state := { c.state with
      transcript := mo.finalSuffix ++ mo.interim,
      interimTranscript := mo.interim,
      finalTranscript := c.state.finalTranscript ++ mo.finalSuffix,
      results := c.state.results ++ mo.results } }

/-- `recognition.onerror`: classifies the raw code, ends listening,
records the error.  It does NOT touch the silence timer. -/
def onError (raw : String) (c : Controller) : Controller :=
  { c with state := { c.state with
      isListening := false,
      error := some ⟨normalizeErrorCode raw, errorMessageFor raw,
        "SpeechRecognitionError", none⟩ } }

/-- `recognition.onend`: clears the silence timer and ends listening. -/
def onEnd (c : Controller) : Controller :=
  { c with
    timerArmed := false
    state := { c.state with isListening := false } }

/-- The silence-watchdog timeout body: the timer is consumed, `stop()` is
issued when an instance exists, and `onAutoStop` is invoked when the
callback is present and the mirrored final transcript is non-empty
(JS truthiness of the string). -/
def watchdogFire (c : Controller) : Controller × List Cmd :=
  let stopCmds := if c.recognition.isSome then [Cmd.stop] else []
  let cbCmds :=
    if hasAutoStopCb c.options then
      if c.transcriptRefFinal = "" then []
      else [Cmd.autoStopCallback c.transcriptRefFinal]
    else []
  ({ c with timerArmed := false }, stopCmds ++ cbCmds)

/-- `startListening(options?)`.  `constructFails` and `startFails` are the
throw oracles for lazy (re)initialization and for the try-block around
the configuration + `start()` call. -/
def startListening (env : BrowserEnv) (overrides : Option SpeechToTextOptions)
    (constructFails startFails : Option String) (c : Controller) :
    Controller × List Cmd :=
  if c.state.isSupported = false then
    let bc := checkBrowserCompatibility env
    ({ c with state := { c.state with
        error := some ⟨"NOT_SUPPORTED", "Speech recognition is not supported",
          "NotSupportedError", some (bc.browserName, bc.reason)⟩ } }, [])
  else if c.state.isListening then
    (c, [])
  else
    let c1 :=
      match overrides with
      | some o => { c with options := mergeOptions c.options o }
      | none => c
    let c2 :=
      match c1.recognition with
      | some _ => c1
      | none =>
        let p := initSpeechRecognition env constructFails c1
        { p.1 with recognition := p.2 }
    match c2.recognition with
    | none => (c2, [])
    | some _ =>
      let c3 := { c2 with recognition := some (applyConfig c2.options) }
      match startFails with
      | none => (c3, [Cmd.start])
      | some msg =>
        ({ c3 with state := { c3.state with
            error := some ⟨"START_ERROR", msg, "StartError", none⟩ } }, [Cmd.start])

/-- `stopListening`: only with a live instance while listening; clears the
timer and issues `stop()`. -/
def stopListening (c : Controller) : Controller × List Cmd :=
  if c.recognition.isSome && c.state.isListening then
    ({ c with timerArmed := false }, [Cmd.stop])
  else
    (c, [])

/-- `abortListening`: only with a live instance; clears the timer and
issues `abort()`.  Without an instance it does nothing. -/
def abortListening (c : Controller) : Controller × List Cmd :=
  if c.recognition.isSome then
    ({ c with timerArmed := false }, [Cmd.abort])
  else
    (c, [])

/-- `resetTranscript`: clears the transcript mirror and the transcript
and result fields of the state. -/
def resetTranscript (c : Controller) : Controller :=
  { c with
    transcriptRefFinal := "",
    transcriptRefInterim := "",
    state := { c.state with
      transcript := "", interimTranscript := "", finalTranscript := "",
      results := [] } }

/-- `clearError`. -/
def clearError (c : Controller) : Controller :=
  { c with state := { c.state with error := none } }

/-- States reachable from a freshly mounted controller by public actions
and capability events.  Capability events fire only while an instance is
live; the watchdog fires only while armed. -/
inductive Reach (env : BrowserEnv) : Controller → Prop where
  | init (opts : Option SpeechToTextOptions) (cf : Option String) :
      Reach env (mountInit env cf (mkController opts))
  | startL {c} (ov : Option SpeechToTextOptions) (cf sf : Option String) :
      Reach env c → Reach env (startListening env ov cf sf c).1
  | stopL {c} : Reach env c → Reach env (stopListening c).1
  | abortL {c} : Reach env c → Reach env (abortListening c).1
  | reset {c} : Reach env c → Reach env (resetTranscript c)
  | clearE {c} : Reach env c → Reach env (clearError c)
  | evStart {c} : Reach env c → c.recognition.isSome = true →
      Reach env (onStart c)
  | evResult {c} (ev : SpeechRecognitionEvent) (now : Nat) :
      Reach env c → c.recognition.isSome = true → Reach env (onResult ev now c)
  | evError {c} (raw : String) : Reach env c → c.recognition.isSome = true →
      Reach env (onError raw c)
  | evEnd {c} : Reach env c → c.recognition.isSome = true → Reach env (onEnd c)
  | fire {c} : Reach env c → c.timerArmed = true → Reach env (watchdogFire c).1

/-- A supported Chrome-like environment used for concrete runs. -/
def envChrome : BrowserEnv := ⟨true, "chrome", false, true, none⟩

/-- A non-browser environment (no global window). -/
def envNoWindow : BrowserEnv := ⟨false, "", false, false, none⟩

/-- Initial options enabling the silence auto-stop feature. -/
def optsAuto : SpeechToTextOptions :=
  ⟨none, none, none, none, some ⟨true, some 2000, false⟩⟩

/-- A freshly mounted controller in the supported environment. -/
def c0 : Controller := mountInit envChrome none (mkController none)

/-- A freshly mounted controller with auto-stop enabled. -/
def c0auto : Controller := mountInit envChrome none (mkController (some optsAuto))


/-! ## Specification-side characterizations of the result merge -/

/-- Concatenation of a list of texts, in order. -/
def concatTexts : List String → String
  | [] => ""
  | s :: rest => s ++ concatTexts rest

/-- The texts of the final entries of a batch, concatenated in order. -/
def finalTexts (rs : List SpeechRecognitionResult) : String :=
  concatTexts ((rs.filter fun r => r.isFinal).map fun r => r.transcript)

/-- The texts of the non-final entries of a batch, concatenated in order. -/
def interimTexts (rs : List SpeechRecognitionResult) : String :=
  concatTexts ((rs.filter fun r => !r.isFinal).map fun r => r.transcript)

/-- The logged form of one processed entry. -/
def logEntry (now : Nat) (r : SpeechRecognitionResult) : SpeechToTextResult :=
  ⟨r.transcript, r.confidence, r.isFinal, now⟩

theorem processEntries_eq (now : Nat) :
    ∀ rs : List SpeechRecognitionResult,
      processEntries now rs = ⟨finalTexts rs, interimTexts rs, rs.map (logEntry now)⟩
  | [] => rfl
  | r :: rs => by
    have ih := processEntries_eq now rs
    by_cases h : r.isFinal = true <;>
      simp [processEntries, ih, finalTexts, interimTexts, concatTexts, logEntry,
        List.filter_cons, h]

/-! ## Frame lemmas -/

theorem initSpeech_frame (env : BrowserEnv) (cf : Option String) (c : Controller) :
    (initSpeechRecognition env cf c).1.state.isListening = c.state.isListening ∧
    (initSpeechRecognition env cf c).1.state.transcript = c.state.transcript ∧
    (initSpeechRecognition env cf c).1.state.interimTranscript = c.state.interimTranscript ∧
    (initSpeechRecognition env cf c).1.state.finalTranscript = c.state.finalTranscript ∧
    (initSpeechRecognition env cf c).1.state.results = c.state.results ∧
    (initSpeechRecognition env cf c).1.recognition = c.recognition ∧
    (initSpeechRecognition env cf c).1.timerArmed = c.timerArmed ∧
    (initSpeechRecognition env cf c).1.transcriptRefFinal = c.transcriptRefFinal ∧
    (initSpeechRecognition env cf c).1.transcriptRefInterim = c.transcriptRefInterim ∧
    (initSpeechRecognition env cf c).1.options = c.options := by
  unfold initSpeechRecognition
  by_cases h1 : (checkBrowserCompatibility env).isSupported = false
  · simp [h1]
  · by_cases h2 : getBrowserSpeechRecognition env = false
    · simp [h1, h2]
    · cases cf <;> simp [h1, h2]

theorem initSpeech_isSome_isSupported (env : BrowserEnv) (cf : Option String)
    (c : Controller) :
    ((initSpeechRecognition env cf c).2).isSome = true →
      (initSpeechRecognition env cf c).1.state.isSupported = true := by
  unfold initSpeechRecognition
  by_cases h1 : (checkBrowserCompatibility env).isSupported = false
  · simp [h1]
  · by_cases h2 : getBrowserSpeechRecognition env = false
    · simp [h1, h2]
    · cases cf <;> simp [h1, h2]

theorem startListening_frame (env : BrowserEnv) (ov : Option SpeechToTextOptions)
    (cf sf : Option String) (c : Controller) :
    ((startListening env ov cf sf c).1).state.isListening = c.state.isListening ∧
    ((startListening env ov cf sf c).1).state.transcript = c.state.transcript ∧
    ((startListening env ov cf sf c).1).state.interimTranscript = c.state.interimTranscript ∧
    ((startListening env ov cf sf c).1).state.finalTranscript = c.state.finalTranscript ∧
    ((startListening env ov cf sf c).1).state.results = c.state.results ∧
    ((startListening env ov cf sf c).1).timerArmed = c.timerArmed ∧
    ((startListening env ov cf sf c).1).transcriptRefFinal = c.transcriptRefFinal ∧
    ((startListening env ov cf sf c).1).transcriptRefInterim = c.transcriptRefInterim := by
  unfold startListening
  by_cases h1 : c.state.isSupported = false
  · simp [h1]
  · by_cases h2 : c.state.isListening = true
    · simp [h1, h2]
    · replace h2 : c.state.isListening = false := by simpa using h2
      cases ov with
      | some o =>
        cases hr : c.recognition with
        | some r => cases sf <;> simp [h1, h2, hr, startListening]
        | none =>
          have hf := initSpeech_frame env cf { c with options := mergeOptions c.options o }
          cases hp : (initSpeechRecognition env cf
              { c with options := mergeOptions c.options o }).2 with
          | some r => cases sf <;> simp_all [h1, h2, hr, hp]
          | none => simp_all [h1, h2, hr, hp]
      | none =>
        cases hr : c.recognition with
        | some r => cases sf <;> simp [h1, h2, hr, startListening]
        | none =>
          have hf := initSpeech_frame env cf c
          cases hp : (initSpeechRecognition env cf c).2 with
          | some r => cases sf <;> simp_all [h1, h2, hr, hp]
          | none => simp_all [h1, h2, hr, hp]

/-! ## Reachability invariant: a listening controller is supported -/

/-- In the hook, `isListening` is set only by the `onstart` handler of a
live instance, and a live instance exists only after a successful
initialization, which set `isSupported`. -/
def ControllerInv (c : Controller) : Prop :=
  (c.recognition.isSome = true → c.state.isSupported = true) ∧
  (c.state.isListening = true → c.recognition.isSome = true)

theorem startListening_inv (env : BrowserEnv) (ov : Option SpeechToTextOptions)
    (cf sf : Option String) (c : Controller) (h : ControllerInv c) :
    ControllerInv (startListening env ov cf sf c).1 := by
  unfold startListening
  by_cases h1 : c.state.isSupported = false
  · simp only [h1, if_true]
    refine ⟨fun hs => ?_, fun hl => ?_⟩
    · exact absurd (h.1 (by simpa using hs)) (by simp [h1])
    · exact h.2 (by simpa using hl)
  · by_cases h2 : c.state.isListening = true
    · simp [h1, h2]; exact h
    · replace h2 : c.state.isListening = false := by simpa using h2
      have h1' : c.state.isSupported = true := by
        cases hb : c.state.isSupported
        · exact absurd hb h1
        · rfl
      cases ov with
      | some o =>
        cases hr : c.recognition with
        | some r => cases sf <;> simp [h1, h2, hr, h1', ControllerInv]
        | none =>
          have hf := initSpeech_frame env cf { c with options := mergeOptions c.options o }
          have hsup := initSpeech_isSome_isSupported env cf
            { c with options := mergeOptions c.options o }
          cases hp : (initSpeechRecognition env cf
              { c with options := mergeOptions c.options o }).2 with
          | some r =>
            cases sf <;> simp_all [h1, h2, hr, hp, ControllerInv]
          | none => simp_all [h1, h2, hr, hp, ControllerInv]
      | none =>
        cases hr : c.recognition with
        | some r => cases sf <;> simp [h1, h2, hr, h1', ControllerInv]
        | none =>
          have hf := initSpeech_frame env cf c
          have hsup := initSpeech_isSome_isSupported env cf c
          cases hp : (initSpeechRecognition env cf c).2 with
          | some r =>
            cases sf <;> simp_all [h1, h2, hr, hp, ControllerInv]
          | none => simp_all [h1, h2, hr, hp, ControllerInv]

theorem reach_inv {env : BrowserEnv} {c : Controller} (h : Reach env c) :
    ControllerInv c := by
  induction h with
  | init opts cf =>
    refine ⟨?_, ?_⟩
    · intro hs
      have hs' : ((initSpeechRecognition env cf (mkController opts)).2).isSome = true := hs
      exact initSpeech_isSome_isSupported env cf (mkController opts) hs'
    · intro hl
      have hl' : (initSpeechRecognition env cf (mkController opts)).1.state.isListening
          = true := hl
      rw [(initSpeech_frame env cf (mkController opts)).1] at hl'
      simp [mkController] at hl'
  | startL ov cf sf _ ih => exact startListening_inv _ ov cf sf _ ih
  | stopL _ ih =>
    unfold stopListening
    split
    · exact ⟨ih.1, ih.2⟩
    · exact ih
  | abortL _ ih =>
    unfold abortListening
    split
    · exact ⟨ih.1, ih.2⟩
    · exact ih
  | reset _ ih => exact ⟨ih.1, ih.2⟩
  | clearE _ ih => exact ⟨ih.1, ih.2⟩
  | evStart _ hrec ih =>
    refine ⟨?_, ?_⟩
    · intro hs
      exact ih.1 (by simpa [onStart, resetSilenceTimeout] using hs)
    · intro _
      simpa [onStart, resetSilenceTimeout] using hrec
  | evResult ev now _ _ ih => exact ⟨ih.1, fun hl => ih.2 (by simpa [onResult] using hl)⟩
  | evError raw _ _ ih =>
    exact ⟨ih.1, fun hl => by simp [onError] at hl⟩
  | evEnd _ _ ih =>
    exact ⟨ih.1, fun hl => by simp [onEnd] at hl⟩
  | fire _ _ ih => exact ⟨ih.1, ih.2⟩

/-! ## Concrete runs used in counterexamples and witnesses -/

/-- A freshly mounted controller in a non-browser environment. -/
def cNoWin : Controller := mountInit envNoWindow none (mkController none)

/-- First "result" event: one final entry "hello ". -/
def resultEv1 : SpeechRecognitionEvent := ⟨0, [⟨"hello ", 9, true⟩]⟩

/-- Second "result" event: the earlier entry plus a new final entry
"world", with result index 1 marking only the second entry as new. -/
def resultEv2 : SpeechRecognitionEvent := ⟨1, [⟨"hello ", 9, true⟩, ⟨"world", 8, true⟩]⟩

/-- The controller after a start event and the two result events above. -/
def c1seq : Controller := onResult resultEv2 1 (onResult resultEv1 0 (onStart c0))

/-- A listening controller in the supported environment. -/
def cListening : Controller := onStart c0

/-- The controller after a start event (arming the watchdog, auto-stop
enabled) followed by a capability error event. -/
def c4state : Controller := onError "network" (onStart c0auto)

/-! ## Claim theorems -/

/-- Claim C1.  The claimed invariant `combinedTranscript ==
finalTranscript + interimTranscript` is FALSE on the code: the
`onresult` handler sets the combined `transcript` field from the
batch-local final suffix (`transcript: finalTranscript +
interimTranscript` with `finalTranscript` the loop-local variable), not
from the accumulated final transcript.  After two final results
"hello " and "world" the reachable state has `finalTranscript ==
"hello world"` but `transcript == "world"`.  This contradicts the
repository README, which documents `transcript` as the combined final
and interim transcript. -/
theorem transcript_combined_bug :
    Reach envChrome c1seq ∧
    c1seq.state.finalTranscript = "hello world" ∧
    c1seq.state.interimTranscript = "" ∧
    c1seq.state.transcript = "world" ∧
    c1seq.state.transcript ≠ c1seq.state.finalTranscript ++ c1seq.state.interimTranscript := by
  refine ⟨?_, by decide, by decide, by decide, by decide⟩
  exact Reach.evResult resultEv2 1
    (Reach.evResult resultEv1 0
      (Reach.evStart (Reach.init none none) (by decide)) (by decide)) (by decide)

/-- Claim C2.  The recorded error code is `raw.toUpperCase().replace("-",
"_")`; in JS, `replace` with a string pattern replaces only the FIRST
hyphen.  Single-hyphen codes normalize as claimed, but
`service-not-allowed` is recorded as `SERVICE_NOT-ALLOWED` and
`language-not-supported` as `LANGUAGE_NOT-SUPPORTED`, not the fully
underscored forms the claim states. -/
theorem error_code_first_hyphen_only :
    normalizeErrorCode "no-speech" = "NO_SPEECH" ∧
    normalizeErrorCode "bad-grammar" = "BAD_GRAMMAR" ∧
    normalizeErrorCode "service-not-allowed" = "SERVICE_NOT-ALLOWED" ∧
    normalizeErrorCode "language-not-supported" = "LANGUAGE_NOT-SUPPORTED" ∧
    normalizeErrorCode "service-not-allowed" ≠ "SERVICE_NOT_ALLOWED" ∧
    normalizeErrorCode "language-not-supported" ≠ "LANGUAGE_NOT_SUPPORTED" ∧
    (onError "service-not-allowed" c0).state.error =
      some ⟨"SERVICE_NOT-ALLOWED", "Speech recognition service is not allowed",
        "SpeechRecognitionError", none⟩ := by
  decide

/-- Claim C3, counterexample.  In a reachable state with no live
capability instance (a controller mounted in a non-browser environment),
`abortListening` issues NO abort command at all: the claim that it
"attempts a capability abort command" in every state, including states
with no live capability instance, is false. -/
theorem abortListening_no_instance_no_abort :
    Reach envNoWindow cNoWin ∧ cNoWin.recognition = none ∧
    abortListening cNoWin = (cNoWin, []) :=
  ⟨Reach.init none none, by decide, by decide⟩

/-- Claim C3, amended.  `abortListening` never raises (it is total) and
never changes the state fields, the options, the transcript mirror, or
the instance; when a live capability instance exists it disarms any
pending timer and issues exactly one abort command, regardless of the
session status; when no instance exists it does nothing at all (no
command, timer untouched). -/
theorem abortListening_effects (c : Controller) :
    (abortListening c).1.state = c.state ∧
    (abortListening c).1.recognition = c.recognition ∧
    (abortListening c).1.options = c.options ∧
    (abortListening c).1.transcriptRefFinal = c.transcriptRefFinal ∧
    (abortListening c).1.transcriptRefInterim = c.transcriptRefInterim ∧
    (c.recognition.isSome = true →
      (abortListening c).1.timerArmed = false ∧ (abortListening c).2 = [Cmd.abort]) ∧
    (c.recognition = none → abortListening c = (c, [])) := by
  unfold abortListening
  cases hr : c.recognition <;> simp [hr]

/-- Witness for the amended C3 theorem at the concrete controller `c0`. -/
theorem abortListening_effects_witness :
    (abortListening c0).1.state = c0.state ∧
    (abortListening c0).1.recognition = c0.recognition ∧
    (abortListening c0).1.options = c0.options ∧
    (abortListening c0).1.transcriptRefFinal = c0.transcriptRefFinal ∧
    (abortListening c0).1.transcriptRefInterim = c0.transcriptRefInterim ∧
    (c0.recognition.isSome = true →
      (abortListening c0).1.timerArmed = false ∧ (abortListening c0).2 = [Cmd.abort]) ∧
    (c0.recognition = none → abortListening c0 = (c0, [])) :=
  abortListening_effects c0

/-- Claim C4, counterexample.  The claimed invariant "timer armed iff
status is Listening and auto-stop enabled" fails on a reachable state:
after a start event (which arms the timer, auto-stop enabled) followed
by a capability error event, the error handler ends listening but does
NOT disarm the timer, so the timer is armed while the status is no
longer Listening. -/
theorem watchdog_armed_iff_counterexample :
    Reach envChrome c4state ∧
    autoStopEnabled c4state.options = true ∧
    c4state.timerArmed = true ∧
    c4state.state.isListening = false := by
  refine ⟨?_, by decide, by decide, by decide⟩
  exact Reach.evError "network"
    (Reach.evStart (Reach.init (some optsAuto) none) (by decide)) (by decide)

/-- Claim C4, amended.  After a capability start or result event the
timer is armed iff auto-stop is enabled; the end event, a watchdog fire,
an effective stop, and an effective abort always leave it disarmed; but
the error event leaves the timer exactly as it was, so between an error
event and the subsequent end event an armed timer can coexist with a
non-Listening status (the unrestricted iff does not hold). -/
theorem watchdog_arming_events (c : Controller) (ev : SpeechRecognitionEvent)
    (now : Nat) (raw : String) :
    (onStart c).timerArmed = autoStopEnabled c.options ∧
    (onResult ev now c).timerArmed = autoStopEnabled c.options ∧
    (onEnd c).timerArmed = false ∧
    (onError raw c).timerArmed = c.timerArmed ∧
    ((watchdogFire c).1).timerArmed = false ∧
    ((stopListening c).1).timerArmed =
      (if c.recognition.isSome && c.state.isListening then false else c.timerArmed) ∧
    ((abortListening c).1).timerArmed =
      (if c.recognition.isSome then false else c.timerArmed) := by
  refine ⟨rfl, rfl, rfl, rfl, rfl, ?_, ?_⟩
  · unfold stopListening
    by_cases h : (c.recognition.isSome && c.state.isListening) = true <;> simp [h]
  · unfold abortListening
    cases hr : c.recognition <;> simp [hr]

/-- Claim C5.  The `onresult` handler processes exactly the entries from
the event's result index onward: the texts of the final entries are
concatenated, in order, onto the prior final transcript; the interim
transcript is set to exactly the concatenation of this batch's non-final
texts (replacing the previous interim); and every processed entry is
appended, in order, to the results log. -/
theorem onResult_merge_spec (c : Controller) (ev : SpeechRecognitionEvent) (now : Nat) :
    (onResult ev now c).state.finalTranscript
      = c.state.finalTranscript ++ finalTexts (ev.results.drop ev.resultIndex) ∧
    (onResult ev now c).state.interimTranscript
      = interimTexts (ev.results.drop ev.resultIndex) ∧
    (onResult ev now c).state.results
      = c.state.results ++ (ev.results.drop ev.resultIndex).map (logEntry now) := by
  simp [onResult, processEntries_eq]

/-- Claim C6.  Each result event extends the final transcript on the
right (so the previous value is a prefix of the new one); the interim
transcript after an event depends only on the event's batch, not on the
prior state; every other operation and event leaves the final transcript
unchanged; only `resetTranscript` replaces it (with the empty string). -/
theorem final_transcript_monotone (c c2 : Controller) (ev : SpeechRecognitionEvent)
    (now : Nat) (raw : String) (env : BrowserEnv) (ov : Option SpeechToTextOptions)
    (cf sf : Option String) :
    (∃ t, (onResult ev now c).state.finalTranscript = c.state.finalTranscript ++ t) ∧
    (onResult ev now c).state.interimTranscript
      = (onResult ev now c2).state.interimTranscript ∧
    (onStart c).state.finalTranscript = c.state.finalTranscript ∧
    (onError raw c).state.finalTranscript = c.state.finalTranscript ∧
    (onEnd c).state.finalTranscript = c.state.finalTranscript ∧
    ((startListening env ov cf sf c).1).state.finalTranscript = c.state.finalTranscript ∧
    ((stopListening c).1).state.finalTranscript = c.state.finalTranscript ∧
    ((abortListening c).1).state.finalTranscript = c.state.finalTranscript ∧
    ((watchdogFire c).1).state.finalTranscript = c.state.finalTranscript ∧
    (clearError c).state.finalTranscript = c.state.finalTranscript ∧
    (resetTranscript c).state.finalTranscript = "" := by
  refine ⟨⟨finalTexts (ev.results.drop ev.resultIndex), ?_⟩, ?_, rfl, rfl, rfl,
    (startListening_frame env ov cf sf c).2.2.2.1, ?_, ?_, rfl, rfl, rfl⟩
  · simp [onResult, processEntries_eq]
  · simp [onResult]
  · unfold stopListening
    by_cases h : (c.recognition.isSome && c.state.isListening) = true <;> simp [h]
  · unfold abortListening
    cases hr : c.recognition <;> simp [hr]

/-- Claim C7.  In every reachable state in which the controller is
listening, `startListening` (with or without overrides, whatever the
throw oracles) returns the state completely unchanged and issues no
command: the early return fires before the options merge, so any
override is silently dropped. -/
theorem startListening_noop_while_listening (env : BrowserEnv) (c : Controller)
    (hre : Reach env c) (hl : c.state.isListening = true)
    (ov : Option SpeechToTextOptions) (cf sf : Option String) :
    startListening env ov cf sf c = (c, []) := by
  have hsup : c.state.isSupported = true := (reach_inv hre).1 ((reach_inv hre).2 hl)
  unfold startListening
  simp [hsup, hl]

/-- Witness for C7 at a concrete reachable listening state. -/
theorem startListening_noop_while_listening_witness :
    startListening envChrome (some optsAuto) none none cListening = (cListening, []) :=
  startListening_noop_while_listening envChrome cListening
    (Reach.evStart (Reach.init none none) (by decide)) (by decide)
    (some optsAuto) none none

/-- Claim C8.  `resetTranscript` empties the three transcript fields and
the results log, leaves status, support, initialization and error fields
unchanged, and is idempotent. -/
theorem resetTranscript_spec (c : Controller) :
    (resetTranscript c).state.finalTranscript = "" ∧
    (resetTranscript c).state.interimTranscript = "" ∧
    (resetTranscript c).state.transcript = "" ∧
    (resetTranscript c).state.results = [] ∧
    (resetTranscript c).state.error = c.state.error ∧
    (resetTranscript c).state.isListening = c.state.isListening ∧
    (resetTranscript c).state.isSupported = c.state.isSupported ∧
    (resetTranscript c).state.isInitializing = c.state.isInitializing ∧
    resetTranscript (resetTranscript c) = resetTranscript c := by
  simp [resetTranscript]

/-- Claim C9.  With no global window, the probe returns unsupported with
the non-empty reason "Not running in browser environment", and mounting
the controller (a total function, so it cannot raise) leaves
`isSupported` and `isInitializing` false, no live instance, and a
recorded NOT_SUPPORTED error carrying that reason. -/
theorem nonbrowser_init (env : BrowserEnv) (h : env.hasWindow = false)
    (opts : Option SpeechToTextOptions) (cf : Option String) :
    checkBrowserCompatibility env
      = ⟨false, "Unknown", "Not running in browser environment"⟩ ∧
    (checkBrowserCompatibility env).reason ≠ "" ∧
    (mountInit env cf (mkController opts)).state.isSupported = false ∧
    (mountInit env cf (mkController opts)).state.isInitializing = false ∧
    (mountInit env cf (mkController opts)).recognition = none ∧
    (mountInit env cf (mkController opts)).state.error
      = some ⟨"NOT_SUPPORTED", "Not running in browser environment", "NotSupportedError",
          some ("Unknown", "Not running in browser environment")⟩ := by
  have hbc : checkBrowserCompatibility env
      = ⟨false, "Unknown", "Not running in browser environment"⟩ := by
    unfold checkBrowserCompatibility
    simp [h]
  refine ⟨hbc, by rw [hbc]; decide, ?_, ?_, ?_, ?_⟩ <;>
    simp [mountInit, initSpeechRecognition, hbc]

/-- Witness for C9 at the concrete non-browser environment. -/
theorem nonbrowser_init_witness :
    checkBrowserCompatibility envNoWindow
      = ⟨false, "Unknown", "Not running in browser environment"⟩ ∧
    (checkBrowserCompatibility envNoWindow).reason ≠ "" ∧
    (mountInit envNoWindow none (mkController none)).state.isSupported = false ∧
    (mountInit envNoWindow none (mkController none)).state.isInitializing = false ∧
    (mountInit envNoWindow none (mkController none)).recognition = none ∧
    (mountInit envNoWindow none (mkController none)).state.error
      = some ⟨"NOT_SUPPORTED", "Not running in browser environment", "NotSupportedError",
          some ("Unknown", "Not running in browser environment")⟩ :=
  nonbrowser_init envNoWindow (by decide) none none

/-- Claim C10.  `startListening` never touches the transcript fields or
the results log on any of its paths, and the capability "start" event
changes only the listening flag (to true), the error field (to none) and
the watchdog timer, leaving transcripts, results, support flags, the
instance, the options and the transcript mirror unchanged: transcript
content accumulates across sessions until `resetTranscript`. -/
theorem start_preserves_transcripts (env : BrowserEnv) (ov : Option SpeechToTextOptions)
    (cf sf : Option String) (c : Controller) :
    ((startListening env ov cf sf c).1).state.finalTranscript = c.state.finalTranscript ∧
    ((startListening env ov cf sf c).1).state.interimTranscript
      = c.state.interimTranscript ∧
    ((startListening env ov cf sf c).1).state.transcript = c.state.transcript ∧
    ((startListening env ov cf sf c).1).state.results = c.state.results ∧
    (onStart c).state.finalTranscript = c.state.finalTranscript ∧
    (onStart c).state.interimTranscript = c.state.interimTranscript ∧
    (onStart c).state.transcript = c.state.transcript ∧
    (onStart c).state.results = c.state.results ∧
    (onStart c).state.isListening = true ∧
    (onStart c).state.error = none ∧
    (onStart c).state.isSupported = c.state.isSupported ∧
    (onStart c).state.isInitializing = c.state.isInitializing ∧
    (onStart c).recognition = c.recognition ∧
    (onStart c).options = c.options ∧
    (onStart c).timerArmed = autoStopEnabled c.options ∧
    (onStart c).transcriptRefFinal = c.transcriptRefFinal ∧
    (onStart c).transcriptRefInterim = c.transcriptRefInterim := by
  obtain ⟨-, ht, hi, hf, hres, -, -, -⟩ := startListening_frame env ov cf sf c
  exact ⟨hf, hi, ht, hres, rfl, rfl, rfl, rfl, rfl, rfl, rfl, rfl, rfl, rfl, rfl, rfl, rfl⟩
